import Mathlib

/-!
Verification of the boepie WSClean parameter model and process runner:
a shallow embedding of `src/boepie/imaging.py` and `src/boepie/utilities.py`.

The parameter model `WSCleanInput` is a pydantic `BaseModel`; we embed it as a
structure whose field types mirror the pydantic annotations after type
validation, `model_dump(by_alias=True)` as an explicit ordered association
list, and `to_cmd` as the loop from the source.  Python floats never undergo
arithmetic in this code; a float value is carried as the decimal text that
Python's `str()` renders for it.
-/

namespace Boepie

/-- A Python float, carried as the text `str(x)` produces for it (for example
"0.5").  The imaging code only ever passes floats through to the command
line, so their textual rendering is all that matters here. -/
abbrev PyFloat := String

/-- An atomic (non-sequence) Python value appearing in `model_dump` output. -/
inductive PyAtom where
  | str (s : String)
  | int (n : Int)
  | bool (b : Bool)
  | float (render : PyFloat)
deriving DecidableEq

/-- A Python value appearing in `model_dump` output: an atom or a flat list of
atoms.  All sequence-typed fields of `WSCleanInput` (`Sequence[str]`,
`list[int]`, `list[str | float]`) hold flat lists, so no deeper nesting
occurs. -/
inductive PyVal where
  | atom (a : PyAtom)
  | list (xs : List PyAtom)
deriving DecidableEq

/-- Python `repr(a)` for an atomic value: strings are quoted with single
quotes, `True` / `False` keep their capitalised form, numbers render as their
decimal text. -/
def pyReprAtom : PyAtom → String
  | .str s => "'" ++ s ++ "'"
  | .int n => toString n
  | .bool b => if b then "True" else "False"
  | .float render => render

/-- Python `str(v)` as used by the f-string in `to_cmd`: a string renders as
its bare text, any other atom as its `repr`, and a list as the bracketed,
comma-separated `repr`s of its elements. -/
def pyStr : PyVal → String
  | .atom (.str s) => s
  | .atom a => pyReprAtom a
  | .list xs => "[" ++ String.intercalate ", " (xs.map pyReprAtom) ++ "]"

/-- `utilities.cli_sanitise`: `value.replace("_", "-")`.  The pattern is the
single character `_`, so the replacement is a per-character map. -/
def cli_sanitise (value : String) : String :=
  String.mk (value.data.map (fun c => if c = '_' then '-' else c))

/-- The rewrite the spec describes as mapping the external name "back":
every hyphen becomes an underscore again.  (Modelled from the spec's text;
the source only defines the forward direction `cli_sanitise`.) -/
def hyphens_to_underscores (value : String) : String :=
  String.mk (value.data.map (fun c => if c = '-' then '_' else c))

/-- The pydantic union `str | float` (fields `scale` and `simulate_noise`). -/
inductive StrOrFloat where
  | s (v : String)
  | f (render : PyFloat)
deriving DecidableEq

def StrOrFloat.toPyAtom : StrOrFloat → PyAtom
  | .s v => .str v
  | .f render => .float render

/-- The pydantic union `str | Sequence[str]` (fields `pol` and
`link_polarizations`). -/
inductive StrOrStrList where
  | one (v : String)
  | many (vs : List String)
deriving DecidableEq

def StrOrStrList.toPyVal : StrOrStrList → PyVal
  | .one v => .atom (.str v)
  | .many vs => .list (vs.map PyAtom.str)

/-- The annotation `Literal["rms", "rms-with-min"]` of `local_rms_method`. -/
inductive LocalRmsMethod where
  | rms
  | rmsWithMin
deriving DecidableEq

def LocalRmsMethod.toPyVal : LocalRmsMethod → PyVal
  | .rms => .atom (.str "rms")
  | .rmsWithMin => .atom (.str "rms-with-min")

/-- The `weight` field after pydantic type validation: annotation
`str | list[str | float]`. -/
inductive WeightVal where
  | str (v : String)
  | list (xs : List StrOrFloat)
deriving DecidableEq

def WeightVal.toPyVal : WeightVal → PyVal
  | .str v => .atom (.str v)
  | .list xs => .list (xs.map StrOrFloat.toPyAtom)

/-- `imaging.WSCleanInput` after validation: one field per pydantic field, in
declaration order, with the pydantic defaults (`column` defaults to "DATA",
every other optional field to `None`).  The Python field `prefix` is a Lean
keyword and is embedded as `prefix_`; `continue_` keeps its Python spelling
(its external alias is "continue"). -/
structure WSCleanInput where
  ms : List String
  prefix_ : String
  size : List Int
  scale : StrOrFloat
  column : Option String := some "DATA"
  nchan : Option Int := none
  deconvolution_channels : Option Int := none
  channel_range : Option (List Int) := none
  pol : Option StrOrStrList := none
  join_polarizations : Option Bool := none
  link_polarizations : Option StrOrStrList := none
  intervals_out : Option Int := none
  threads : Option Int := none
  make_psf_only : Option Bool := none
  weight : Option WeightVal := none
  multiscale : Option Bool := none
  multiscale_scales : Option (List Int) := none
  multiscale_scale_bias : Option PyFloat := none
  taper_gaussian : Option String := none
  niter : Option Int := none
  nmiter : Option Int := none
  fits_mask : Option String := none
  threshold : Option PyFloat := none
  auto_threshold : Option PyFloat := none
  auto_mask : Option PyFloat := none
  local_rms : Option Bool := none
  local_rms_window : Option Int := none
  local_rms_method : Option LocalRmsMethod := none
  gain : Option PyFloat := none
  mgain : Option PyFloat := none
  baseline_averaging : Option PyFloat := none
  join_channels : Option Bool := none
  fit_spectral_pol : Option Int := none
  fit_beam : Option Bool := none
  elliptical_beam : Option Bool := none
  padding : Option PyFloat := none
  nwlayers : Option Int := none
  nwlayers_factor : Option PyFloat := none
  save_source_list : Option Bool := none
  store_imaging_weights : Option Bool := none
  parallel_deconvolution : Option Int := none
  parallel_gridding : Option Int := none
  parallel_reordering : Option Int := none
  no_reorder : Option Bool := none
  reorder : Option Bool := none
  predict : Option Bool := none
  no_update_model_required : Option Bool := none
  continue_ : Option Bool := none
  subtract_model : Option Bool := none
  use_wgridder : Option Bool := none
  log_time : Option Bool := none
  interval : Option (List Int) := none
  no_dirty : Option Bool := none
  make_psf : Option Bool := none
  simulate_noise : Option StrOrFloat := none
  taper_inner_tukey : Option PyFloat := none
  minuv_l : Option PyFloat := none
  maxuv_l : Option PyFloat := none
  minuvw_m : Option PyFloat := none
  maxuvw_m : Option PyFloat := none

/-- Dump helper for an `str | None` field. -/
def dumpStr (v : Option String) : Option PyVal := v.map (fun s => .atom (.str s))

/-- Dump helper for an `int | None` field. -/
def dumpInt (v : Option Int) : Option PyVal := v.map (fun n => .atom (.int n))

/-- Dump helper for a `bool | None` field. -/
def dumpBool (v : Option Bool) : Option PyVal := v.map (fun b => .atom (.bool b))

/-- Dump helper for a `float | None` field. -/
def dumpFloat (v : Option PyFloat) : Option PyVal :=
  v.map (fun render => .atom (.float render))

/-- Dump helper for a `Sequence[int] | None` field. -/
def dumpIntList (v : Option (List Int)) : Option PyVal :=
  v.map (fun xs => .list (xs.map PyAtom.int))

/-- `self.model_dump(by_alias=True)`: every field in declaration order, keyed
by its serialization alias ("continue" for `continue_`, the field name
itself everywhere else), value `none` exactly when the Python value is
`None`. -/
def WSCleanInput.model_dump (p : WSCleanInput) : List (String × Option PyVal) :=
  [ ("ms", some (.list (p.ms.map PyAtom.str))),
    ("prefix", some (.atom (.str p.prefix_))),
    ("size", some (.list (p.size.map PyAtom.int))),
    ("scale", some (.atom p.scale.toPyAtom)),
    ("column", dumpStr p.column),
    ("nchan", dumpInt p.nchan),
    ("deconvolution_channels", dumpInt p.deconvolution_channels),
    ("channel_range", dumpIntList p.channel_range),
    ("pol", p.pol.map StrOrStrList.toPyVal),
    ("join_polarizations", dumpBool p.join_polarizations),
    ("link_polarizations", p.link_polarizations.map StrOrStrList.toPyVal),
    ("intervals_out", dumpInt p.intervals_out),
    ("threads", dumpInt p.threads),
    ("make_psf_only", dumpBool p.make_psf_only),
    ("weight", p.weight.map WeightVal.toPyVal),
    ("multiscale", dumpBool p.multiscale),
    ("multiscale_scales", dumpIntList p.multiscale_scales),
    ("multiscale_scale_bias", dumpFloat p.multiscale_scale_bias),
    ("taper_gaussian", dumpStr p.taper_gaussian),
    ("niter", dumpInt p.niter),
    ("nmiter", dumpInt p.nmiter),
    ("fits_mask", dumpStr p.fits_mask),
    ("threshold", dumpFloat p.threshold),
    ("auto_threshold", dumpFloat p.auto_threshold),
    ("auto_mask", dumpFloat p.auto_mask),
    ("local_rms", dumpBool p.local_rms),
    ("local_rms_window", dumpInt p.local_rms_window),
    ("local_rms_method", p.local_rms_method.map LocalRmsMethod.toPyVal),
    ("gain", dumpFloat p.gain),
    ("mgain", dumpFloat p.mgain),
    ("baseline_averaging", dumpFloat p.baseline_averaging),
    ("join_channels", dumpBool p.join_channels),
    ("fit_spectral_pol", dumpInt p.fit_spectral_pol),
    ("fit_beam", dumpBool p.fit_beam),
    ("elliptical_beam", dumpBool p.elliptical_beam),
    ("padding", dumpFloat p.padding),
    ("nwlayers", dumpInt p.nwlayers),
    ("nwlayers_factor", dumpFloat p.nwlayers_factor),
    ("save_source_list", dumpBool p.save_source_list),
    ("store_imaging_weights", dumpBool p.store_imaging_weights),
    ("parallel_deconvolution", dumpInt p.parallel_deconvolution),
    ("parallel_gridding", dumpInt p.parallel_gridding),
    ("parallel_reordering", dumpInt p.parallel_reordering),
    ("no_reorder", dumpBool p.no_reorder),
    ("reorder", dumpBool p.reorder),
    ("predict", dumpBool p.predict),
    ("no_update_model_required", dumpBool p.no_update_model_required),
    ("continue", dumpBool p.continue_),
    ("subtract_model", dumpBool p.subtract_model),
    ("use_wgridder", dumpBool p.use_wgridder),
    ("log_time", dumpBool p.log_time),
    ("interval", dumpIntList p.interval),
    ("no_dirty", dumpBool p.no_dirty),
    ("make_psf", dumpBool p.make_psf),
    ("simulate_noise", p.simulate_noise.map (fun v => .atom v.toPyAtom)),
    ("taper_inner_tukey", dumpFloat p.taper_inner_tukey),
    ("minuv_l", dumpFloat p.minuv_l),
    ("maxuv_l", dumpFloat p.maxuv_l),
    ("minuvw_m", dumpFloat p.minuvw_m),
    ("maxuvw_m", dumpFloat p.maxuvw_m) ]

/-- `WSCleanInput.to_cmd`: start from the fixed tool token, then for every
dumped field whose value is not `None` append one token
`cli_sanitise(name)=str(value)`. -/
def WSCleanInput.to_cmd (p : WSCleanInput) : List String :=
  p.model_dump.foldl
    (fun result arg =>
      match arg.2 with
      | some v => result ++ [cli_sanitise arg.1 ++ "=" ++ pyStr v]
      | none => result)
    ["cultcargo::wsclean"]

/-- The integer a raw atom yields under the `int` part of pydantic type
validation (strict: only genuine ints; the lax numeric-string coercion is not
modelled, and no claim depends on it). -/
def atomInt? : PyAtom → Option Int
  | .int n => some n
  | _ => none

/-- `WSCleanInput.validate_size`, which pydantic runs after type validation
(so its argument is already a `list[int]`): a list must have exactly two
elements.  Its second check, `all(isinstance(x, int) for x in v)`, holds for
every `List Int` and so cannot fire here. -/
def validate_size (v : List Int) : Except String (List Int) :=
  if v.length ≠ 2 then
    .error "Size list must have exactly 2 elements [width, height]"
  else
    .ok v

/-- Validation of the `size` field end to end: the pydantic annotation
`list[int]` with `min_length=1, max_length=2` (a non-list input is rejected;
pydantic does not wrap a bare scalar in a list), then the `validate_size`
field validator. -/
def validate_size_field (v : PyVal) : Except String (List Int) :=
  match v with
  | .list xs =>
      match xs.mapM atomInt? with
      | none => .error "Input should be a valid integer"
      | some ns =>
          if ns.length < 1 then .error "List should have at least 1 item"
          else if 2 < ns.length then .error "List should have at most 2 items"
          else validate_size ns
  | .atom _ => .error "Input should be a valid list"

/-- `WSCleanInput.validate_weight`, which pydantic runs after type validation
(so its argument is already `str | list[str | float]`): a list must be a
(string, number) pair, a bare string must be one of the three weighting
keywords. -/
def validate_weight (v : WeightVal) : Except String WeightVal :=
  match v with
  | .list l =>
      if l.length ≠ 2 then
        .error "Weight list must be [weighting_type, robustness]"
      else
        match l with
        | .f _ :: _ => .error "First element must be weighting type (string)"
        | _ :: .s _ :: _ =>
            .error "Second element must be robustness parameter (number)"
        | _ => .ok v
  | .str s =>
      if s ∈ ["natural", "uniform", "briggs"] then .ok v
      else .error "Weight must be one of ['natural', 'uniform', 'briggs']"

/-- The element a raw atom yields under the `str | float` part of pydantic
type validation; a lax `int` is coerced to a float (whose `str()` text gains
".0"), a bool is rejected. -/
def atomStrOrFloat? : PyAtom → Option StrOrFloat
  | .str s => some (.s s)
  | .float render => some (.f render)
  | .int n => some (.f (toString n ++ ".0"))
  | .bool _ => none

/-- Validation of the `weight` field end to end: the pydantic annotation
`str | list[str | float]`, then the `validate_weight` field validator. -/
def validate_weight_field (v : PyVal) : Except String WeightVal :=
  match v with
  | .atom (.str s) => validate_weight (.str s)
  | .list xs =>
      match xs.mapM atomStrOrFloat? with
      | some l => validate_weight (.list l)
      | none => .error "Input should be a valid string or number"
  | .atom _ => .error "Input should be a valid string or list"

/-- `imaging.RunResult`: the structured outcome returned to the caller. -/
structure RunResult where
  command : String
  stdout : String
  stderr : String
  return_code : Int
deriving DecidableEq

/-- What a successfully spawned child yields: the fully captured streams from
`process.communicate()` and the exit code from `process.returncode`. -/
structure ProcOutcome where
  stdout : String
  stderr : String
  returncode : Int
deriving DecidableEq

/-- The exceptions `subprocess.Popen` raises when the child cannot be spawned
at all (`FileNotFoundError`, `PermissionError`).  `stimela_run` has no
try/except, so these propagate to the caller. -/
inductive SpawnError where
  | fileNotFound (msg : String)
  | permissionDenied (msg : String)
deriving DecidableEq

/-- `imaging.stimela_run`, with the operating-system boundary passed in as the
oracle `spawn` (modelling `subprocess.Popen` + `communicate`): prepend the
fixed invocation prefix, spawn the child, and either propagate the spawn
exception (the source installs no handler) or package the captured streams,
exit code and space-joined command line into a `RunResult`. -/
def stimela_run (spawn : List String → Except SpawnError ProcOutcome)
    (commands : List String) : Except SpawnError RunResult :=
  let final_commands := ["stimela", "run"] ++ commands
  match spawn final_commands with
  | .error e => .error e
  | .ok process =>
      .ok { command := String.intercalate " " final_commands,
            stdout := process.stdout,
            stderr := process.stderr,
            return_code := process.returncode }

/-- The key of a `key=value` token: its text up to the first `=`. -/
def tokenKey (t : String) : String :=
  String.mk (t.data.takeWhile (fun c => c != '='))

/-- The dumped field names, in declaration order (the serialization aliases:
"continue" for the reserved-word field). -/
def wscleanDumpNames : List String :=
  ["ms", "prefix", "size", "scale", "column", "nchan",
   "deconvolution_channels", "channel_range", "pol", "join_polarizations",
   "link_polarizations", "intervals_out", "threads", "make_psf_only",
   "weight", "multiscale", "multiscale_scales", "multiscale_scale_bias",
   "taper_gaussian", "niter", "nmiter", "fits_mask", "threshold",
   "auto_threshold", "auto_mask", "local_rms", "local_rms_window",
   "local_rms_method", "gain", "mgain", "baseline_averaging",
   "join_channels", "fit_spectral_pol", "fit_beam", "elliptical_beam",
   "padding", "nwlayers", "nwlayers_factor", "save_source_list",
   "store_imaging_weights", "parallel_deconvolution", "parallel_gridding",
   "parallel_reordering", "no_reorder", "reorder", "predict",
   "no_update_model_required", "continue", "subtract_model", "use_wgridder",
   "log_time", "interval", "no_dirty", "make_psf", "simulate_noise",
   "taper_inner_tukey", "minuv_l", "maxuv_l", "minuvw_m", "maxuvw_m"]

/-- The internal Python attribute identifiers of `WSCleanInput`, in
declaration order: the reserved-word field is spelt `continue_` here, every
other field under its own name. -/
def wscleanFieldNames : List String :=
  ["ms", "prefix", "size", "scale", "column", "nchan",
   "deconvolution_channels", "channel_range", "pol", "join_polarizations",
   "link_polarizations", "intervals_out", "threads", "make_psf_only",
   "weight", "multiscale", "multiscale_scales", "multiscale_scale_bias",
   "taper_gaussian", "niter", "nmiter", "fits_mask", "threshold",
   "auto_threshold", "auto_mask", "local_rms", "local_rms_window",
   "local_rms_method", "gain", "mgain", "baseline_averaging",
   "join_channels", "fit_spectral_pol", "fit_beam", "elliptical_beam",
   "padding", "nwlayers", "nwlayers_factor", "save_source_list",
   "store_imaging_weights", "parallel_deconvolution", "parallel_gridding",
   "parallel_reordering", "no_reorder", "reorder", "predict",
   "no_update_model_required", "continue_", "subtract_model", "use_wgridder",
   "log_time", "interval", "no_dirty", "make_psf", "simulate_noise",
   "taper_inner_tukey", "minuv_l", "maxuv_l", "minuvw_m", "maxuvw_m"]

/-- The boolean-typed optional fields of `WSCleanInput`, each with its dumped
name, in declaration order. -/
def WSCleanInput.boolOptionFields (p : WSCleanInput) : List (String × Option Bool) :=
  [ ("join_polarizations", p.join_polarizations),
    ("make_psf_only", p.make_psf_only),
    ("multiscale", p.multiscale),
    ("local_rms", p.local_rms),
    ("join_channels", p.join_channels),
    ("fit_beam", p.fit_beam),
    ("elliptical_beam", p.elliptical_beam),
    ("save_source_list", p.save_source_list),
    ("store_imaging_weights", p.store_imaging_weights),
    ("no_reorder", p.no_reorder),
    ("reorder", p.reorder),
    ("predict", p.predict),
    ("no_update_model_required", p.no_update_model_required),
    ("continue", p.continue_),
    ("subtract_model", p.subtract_model),
    ("use_wgridder", p.use_wgridder),
    ("log_time", p.log_time),
    ("no_dirty", p.no_dirty),
    ("make_psf", p.make_psf) ]

/-- The end-to-end scenario input in the two-element square-size form the
code accepts: ms = ["a.ms"], prefix = "out", size = [512, 512],
scale = "1asec", niter = 1000, everything else left at its default. -/
def scenarioInput : WSCleanInput :=
  { ms := ["a.ms"], prefix_ := "out", size := [512, 512],
    scale := .s "1asec", niter := some 1000 }

/-! Helper lemmas about the serialization loop. -/

/-- The accumulating loop of `to_cmd` is an append of the `filterMap` that
keeps one token per set field. -/
lemma to_cmd_loop (l : List (String × Option PyVal)) (init : List String) :
    l.foldl
      (fun result arg =>
        match arg.2 with
        | some v => result ++ [cli_sanitise arg.1 ++ "=" ++ pyStr v]
        | none => result)
      init
    = init ++ l.filterMap
        (fun arg => arg.2.map (fun v => cli_sanitise arg.1 ++ "=" ++ pyStr v)) := by
  induction l generalizing init with
  | nil => simp
  | cons x xs ih =>
      cases hx : x.2 with
      | none => simp [List.foldl_cons, List.filterMap_cons, hx, ih]
      | some v => simp [List.foldl_cons, List.filterMap_cons, hx, ih]

/-- `to_cmd` is the fixed tool token followed by one token per set field, in
declaration order. -/
lemma to_cmd_eq (p : WSCleanInput) :
    p.to_cmd
      = "cultcargo::wsclean"
        :: p.model_dump.filterMap
            (fun arg => arg.2.map (fun v => cli_sanitise arg.1 ++ "=" ++ pyStr v)) := by
  unfold WSCleanInput.to_cmd
  rw [to_cmd_loop]
  rfl

/-- Every token of a set field is in the command list. -/
lemma token_mem_of_dump_mem (p : WSCleanInput) (n : String) (v : PyVal)
    (h : (n, some v) ∈ p.model_dump) :
    (cli_sanitise n ++ "=" ++ pyStr v) ∈ p.to_cmd := by
  rw [to_cmd_eq]
  exact List.mem_cons_of_mem _ (List.mem_filterMap.mpr ⟨(n, some v), h, rfl⟩)

/-- Two `filterMap`s agree when their functions agree on the list. -/
lemma filterMap_ext_mem {α β : Type} {f g : α → Option β} {l : List α}
    (h : ∀ a ∈ l, f a = g a) : l.filterMap f = l.filterMap g := by
  induction l with
  | nil => rfl
  | cons x xs ih =>
      rw [List.filterMap_cons, List.filterMap_cons, h x (by simp),
        ih (fun a ha => h a (List.mem_cons_of_mem _ ha))]

/-- The length of a `filterMap` is the number of elements it keeps. -/
lemma length_filterMap_eq_countP {α β : Type} (f : α → Option β) (l : List α) :
    (l.filterMap f).length = l.countP (fun a => (f a).isSome) := by
  induction l with
  | nil => rfl
  | cons x xs ih =>
      cases hx : f x <;>
        simp [List.filterMap_cons, List.countP_cons, hx, ih]

/-- Python `str()` of a boolean is its capitalised textual form. -/
lemma pyStr_bool (b : Bool) :
    pyStr (.atom (.bool b)) = if b then "True" else "False" := by
  cases b <;> rfl

/-! Helper lemmas about token keys (the text before the first `=`). -/

/-- `takeWhile` swallows a whole prefix of satisfying characters and stops at
the first failing one. -/
lemma takeWhile_append_cons {p : Char → Bool} (l1 : List Char) (c : Char)
    (l2 : List Char) (h1 : l1.all p) (hc : p c = false) :
    (l1 ++ c :: l2).takeWhile p = l1 := by
  induction l1 with
  | nil => simp [List.takeWhile_cons, hc]
  | cons a l ih =>
      simp only [List.all_cons, Bool.and_eq_true] at h1
      simp [List.takeWhile_cons, h1.1, ih h1.2]

/-- The key of a built token is its name part, provided the name holds no
`=`. -/
lemma tokenKey_build (n rest : String) (h : n.data.all (fun c => c != '=')) :
    tokenKey (n ++ "=" ++ rest) = n := by
  unfold tokenKey
  have hdata : (n ++ "=" ++ rest).data = n.data ++ '=' :: rest.data := by
    simp [String.data_append]
  rw [hdata, takeWhile_append_cons n.data '=' rest.data h (by decide)]

/-- Sanitising underscores to hyphens never introduces an `=`. -/
lemma cli_sanitise_no_eq (n : String) (h : n.data.all (fun c => c != '=')) :
    (cli_sanitise n).data.all (fun c => c != '=') := by
  unfold cli_sanitise
  simp only [List.all_map]
  refine List.all_eq_true.mpr (fun c hc => ?_)
  have hcn := List.all_eq_true.mp h c hc
  by_cases hu : c = '_' <;> simp [Function.comp, hu, hcn]

/-- The dump lists exactly the declared fields, under their aliases. -/
lemma model_dump_names (p : WSCleanInput) :
    p.model_dump.map Prod.fst = wscleanDumpNames := rfl

/-- No dumped field name holds an `=`. -/
lemma dump_names_no_eq :
    wscleanDumpNames.all (fun n => n.data.all (fun c => c != '=')) := by decide

/-- Parsing the keys of the emitted `key=value` tokens recovers the sanitised
names of exactly the set fields, in order. -/
lemma tokenKeys_to_cmd (p : WSCleanInput) :
    p.to_cmd.tail.map tokenKey
      = p.model_dump.filterMap (fun arg => arg.2.map (fun _ => cli_sanitise arg.1)) := by
  rw [to_cmd_eq, List.tail_cons, List.map_filterMap]
  refine filterMap_ext_mem (fun arg ha => ?_)
  cases hv : arg.2 with
  | none => rfl
  | some v =>
      have hname : arg.1 ∈ wscleanDumpNames := by
        rw [← model_dump_names p]
        exact List.mem_map_of_mem Prod.fst ha
      have hno : arg.1.data.all (fun c => c != '=') :=
        List.all_eq_true.mp dump_names_no_eq arg.1 hname
      simp [tokenKey_build _ _ (cli_sanitise_no_eq arg.1 hno)]

/-! The claims. -/

/-- C6: for every valid parameter value, serialization produces the fixed
leading token "cultcargo::wsclean" followed by exactly one name=value token
per set attribute, in attribute declaration order, and nothing else. -/
theorem c6_token_sequence (p : WSCleanInput) :
    p.to_cmd
      = "cultcargo::wsclean"
        :: p.model_dump.filterMap
            (fun arg => arg.2.map (fun v => cli_sanitise arg.1 ++ "=" ++ pyStr v))
    ∧ p.to_cmd.length = 1 + p.model_dump.countP (fun arg => arg.2.isSome) := by
  refine ⟨to_cmd_eq p, ?_⟩
  rw [to_cmd_eq]
  have hsame : ∀ (arg : String × Option PyVal),
      (arg.2.map (fun v => cli_sanitise arg.1 ++ "=" ++ pyStr v)).isSome
        = arg.2.isSome := by
    intro arg
    cases arg.2 <;> rfl
  simp only [List.length_cons, length_filterMap_eq_countP, hsame]
  omega

/-- C7: when the child process cannot be spawned at all, `stimela_run`
propagates the spawn error and never returns a `RunResult` (so a spawn
failure is signalled distinctly from a nonzero exit code, which arrives
inside a normally returned result). -/
theorem c7_spawn_error_propagates
    (spawn : List String → Except SpawnError ProcOutcome)
    (commands : List String) (e : SpawnError)
    (h : spawn (["stimela", "run"] ++ commands) = .error e) :
    stimela_run spawn commands = .error e := by
  unfold stimela_run
  rw [List.cons_append, List.cons_append, List.nil_append] at h
  simp [h]

/-- Witness for C7: spawning against a missing `stimela` executable yields the
spawn error itself, not a result. -/
theorem c7_witness :
    stimela_run
      (fun _ => .error (.fileNotFound "No such file or directory: 'stimela'"))
      ["cultcargo::wsclean"]
      = .error (.fileNotFound "No such file or directory: 'stimela'") :=
  c7_spawn_error_propagates _ ["cultcargo::wsclean"] _ rfl

/-- C8: a successfully spawned child that exits with code 2 and writes to
stderr yields a normally returned `RunResult` with `return_code = 2` and the
captured stderr text; no error is raised. -/
theorem c8_nonzero_exit_is_data
    (spawn : List String → Except SpawnError ProcOutcome)
    (commands : List String) (out err : String)
    (h : spawn (["stimela", "run"] ++ commands)
        = .ok { stdout := out, stderr := err, returncode := 2 }) :
    stimela_run spawn commands
      = .ok { command := String.intercalate " " (["stimela", "run"] ++ commands),
              stdout := out, stderr := err, return_code := 2 } := by
  unfold stimela_run
  rw [List.cons_append, List.cons_append, List.nil_append] at h
  simp [h]

/-- Witness for C8: a concrete failing child run is returned as data. -/
theorem c8_witness :
    stimela_run
      (fun _ => .ok { stdout := "", stderr := "wsclean: bad parameters",
                      returncode := 2 })
      ["cultcargo::wsclean"]
      = .ok { command := String.intercalate " "
                (["stimela", "run"] ++ ["cultcargo::wsclean"]),
              stdout := "", stderr := "wsclean: bad parameters",
              return_code := 2 } :=
  c8_nonzero_exit_is_data _ ["cultcargo::wsclean"] "" "wsclean: bad parameters" rfl

/-- C9: for every executed token sequence whose child spawns, the returned
result carries the space-joined full command line (invocation prefix, run
subcommand and all tokens), the fully captured stdout and stderr, and the
child's exit code. -/
theorem c9_result_population
    (spawn : List String → Except SpawnError ProcOutcome)
    (commands : List String) (pr : ProcOutcome)
    (h : spawn (["stimela", "run"] ++ commands) = .ok pr) :
    stimela_run spawn commands
      = .ok { command := String.intercalate " " (["stimela", "run"] ++ commands),
              stdout := pr.stdout, stderr := pr.stderr,
              return_code := pr.returncode } := by
  unfold stimela_run
  rw [List.cons_append, List.cons_append, List.nil_append] at h
  simp [h]

/-- Witness for C9: a concrete run populates every field of the result. -/
theorem c9_witness :
    stimela_run
      (fun _ => .ok { stdout := "imaging done", stderr := "", returncode := 0 })
      ["cultcargo::wsclean", "ms=['a.ms']"]
      = .ok { command := String.intercalate " "
                (["stimela", "run"] ++ ["cultcargo::wsclean", "ms=['a.ms']"]),
              stdout := "imaging done", stderr := "", return_code := 0 } :=
  c9_result_population _ ["cultcargo::wsclean", "ms=['a.ms']"]
    { stdout := "imaging done", stderr := "", returncode := 0 } rfl

/-- C4: replacing underscores with hyphens and back recovers every
non-reserved internal field name, and the reserved-word field (internally
`continue_`) always serializes under its original external name
"continue". -/
theorem c4_name_mapping :
    (∀ n ∈ wscleanFieldNames, n ≠ "continue_" →
        hyphens_to_underscores (cli_sanitise n) = n)
    ∧ ∀ (p : WSCleanInput) (b : Bool), p.continue_ = some b →
        ("continue=" ++ (if b then "True" else "False")) ∈ p.to_cmd := by
  constructor
  · decide
  · intro p b hb
    have h : ("continue", some (PyVal.atom (.bool b))) ∈ p.model_dump := by
      simp [WSCleanInput.model_dump, dumpBool, hb]
    have hmem := token_mem_of_dump_mem p "continue" (.atom (.bool b)) h
    have hs : cli_sanitise "continue" = "continue" := by decide
    rw [hs, pyStr_bool] at hmem
    exact hmem

/-- C5: weight validation accepts exactly the three keywords natural, uniform
and briggs in string form; in list form it accepts exactly the
(string, number) pairs and fails any other shape with a descriptive message;
the single keyword "briggs" succeeds on its own, and a set pair serializes
jointly as one weight token, never as two. -/
theorem c5_weight_validation :
    (∀ s : String, (∃ w, validate_weight (.str s) = .ok w)
        ↔ (s = "natural" ∨ s = "uniform" ∨ s = "briggs"))
    ∧ (∀ l : List StrOrFloat, (∃ w, validate_weight (.list l) = .ok w)
        ↔ ∃ s r, l = [StrOrFloat.s s, StrOrFloat.f r])
    ∧ validate_weight (.str "briggs") = .ok (.str "briggs")
    ∧ validate_weight (.list [.f "0.5", .s "briggs"])
        = .error "First element must be weighting type (string)"
    ∧ WSCleanInput.to_cmd
        { ms := ["a.ms"], prefix_ := "out", size := [128, 64],
          scale := .s "1asec",
          weight := some (.list [.s "briggs", .f "0.5"]) }
        = ["cultcargo::wsclean", "ms=['a.ms']", "prefix=out",
           "size=[128, 64]", "scale=1asec", "column=DATA",
           "weight=['briggs', 0.5]"] := by
  refine ⟨?_, ?_, rfl, rfl, by decide⟩
  · intro s
    constructor
    · rintro ⟨w, hw⟩
      simp only [validate_weight] at hw
      split_ifs at hw with hmem
      simpa using hmem
    · intro hs
      refine ⟨.str s, ?_⟩
      simp only [validate_weight]
      rw [if_pos (by simpa using hs)]
  · intro l
    constructor
    · rintro ⟨w, hw⟩
      simp only [validate_weight] at hw
      split_ifs at hw with hlen
      rcases List.length_eq_two.mp (not_not.mp hlen) with ⟨a, b, rfl⟩
      cases a with
      | f r => simp at hw
      | s s1 =>
          cases b with
          | s s2 => simp at hw
          | f r => exact ⟨s1, r, rfl⟩
    · rintro ⟨s, r, rfl⟩
      exact ⟨.list [.s s, .f r], rfl⟩

/-- C10: every set boolean-typed optional attribute serializes with value
part exactly "True" or "False" (Python's capitalised rendering, never a bare
presence-only flag or a lowercase form), and the sequence-valued `ms`
attribute renders as Python's list literal text, brackets and single-quoted
elements included. -/
theorem c10_bool_and_sequence_rendering :
    (∀ (p : WSCleanInput), ∀ nb ∈ p.boolOptionFields, ∀ b : Bool,
        nb.2 = some b →
          (cli_sanitise nb.1 ++ "=" ++ (if b then "True" else "False"))
            ∈ p.to_cmd)
    ∧ ∀ (p : WSCleanInput),
        ("ms=[" ++ String.intercalate ", "
            (p.ms.map (fun s => "'" ++ s ++ "'")) ++ "]")
          ∈ p.to_cmd := by
  constructor
  · intro p nb hnb b hb
    simp only [WSCleanInput.boolOptionFields, List.mem_cons,
      List.not_mem_nil, or_false] at hnb
    rcases hnb with
      rfl | rfl | rfl | rfl | rfl | rfl | rfl | rfl | rfl | rfl | rfl | rfl |
      rfl | rfl | rfl | rfl | rfl | rfl | rfl
    all_goals
      simp only at hb
      rw [← pyStr_bool b]
      exact token_mem_of_dump_mem p _ _
        (by simp [WSCleanInput.model_dump, dumpBool, hb])
  · intro p
    have h : ("ms", some (PyVal.list (p.ms.map PyAtom.str))) ∈ p.model_dump := by
      simp [WSCleanInput.model_dump]
    have hmem := token_mem_of_dump_mem p "ms" (.list (p.ms.map PyAtom.str)) h
    simp only [pyStr, List.map_map, Function.comp, pyReprAtom] at hmem
    have hs : cli_sanitise "ms" = "ms" := by decide
    rw [hs] at hmem
    exact hmem

/-- Witness for C10: a concrete input with `multiscale` set to true emits the
token multiscale=True. -/
theorem c10_witness :
    ("multiscale=True" : String)
      ∈ WSCleanInput.to_cmd
          { ms := ["a.ms"], prefix_ := "out", size := [128, 64],
            scale := .s "1asec", multiscale := some true } := by
  have h := c10_bool_and_sequence_rendering.1
    { ms := ["a.ms"], prefix_ := "out", size := [128, 64],
      scale := .s "1asec", multiscale := some true }
    ("multiscale", some true) (by decide) true rfl
  exact h

/-- Counterexample for C3 as stated: with only the four required fields
explicitly set, the optional `column` attribute is not unset (it defaults to
"DATA") and contributes the token column=DATA, so re-parsing the serialized
tokens does not yield exactly the explicitly-set fields. -/
theorem c3_counterexample :
    (({ ms := ["a.ms"], prefix_ := "out", size := [128, 64],
        scale := .s "1asec" } : WSCleanInput).column = some "DATA")
    ∧ ("column=DATA"
        ∈ ({ ms := ["a.ms"], prefix_ := "out", size := [128, 64],
             scale := .s "1asec" } : WSCleanInput).to_cmd)
    ∧ (({ ms := ["a.ms"], prefix_ := "out", size := [128, 64],
          scale := .s "1asec" } : WSCleanInput).to_cmd.tail.map tokenKey
        ≠ ["ms", "prefix", "size", "scale"]) :=
  ⟨rfl, by decide, by decide⟩

/-- C3 amended: every optional attribute except `column` defaults to unset —
with only the required fields given, the fields holding values are exactly
the four required ones plus `column` with its default "DATA" — no token
appears for an unset attribute, and parsing the keys of the serialized
key=value tokens yields exactly the sanitised external names of the fields
that hold values, in declaration order. -/
theorem c3_roundtrip_amended :
    (∀ p : WSCleanInput,
        p.to_cmd.tail.map tokenKey
          = p.model_dump.filterMap
              (fun arg => arg.2.map (fun _ => cli_sanitise arg.1)))
    ∧ (({ ms := ["a.ms"], prefix_ := "out", size := [128, 64],
          scale := .s "1asec" } : WSCleanInput).model_dump.filterMap
            (fun arg => arg.2.map (fun _ => arg.1))
        = ["ms", "prefix", "size", "scale", "column"]) :=
  ⟨tokenKeys_to_cmd, by decide⟩

/-- Counterexample for C1 as stated: the scenario passes the bare integer 512
as `size`, but the field's pydantic annotation is `list[int]`, so validation
fails instead of succeeding and no token sequence is ever produced. -/
theorem c1_counterexample :
    validate_size_field (.atom (.int 512))
      = .error "Input should be a valid list" := rfl

/-- C1 amended: for the input ms = ["a.ms"], prefix = "out",
size = [512, 512] (the code accepts only two-element integer lists, not a
bare integer), scale = "1asec", niter = 1000, validation succeeds and
serialization produces exactly the fixed leading token and the set fields in
declaration order — including column=DATA from the `column` default — and
for a successfully spawned child the result's command field is the
space-joined runner prefix, run subcommand and those tokens. -/
theorem c1_end_to_end
    (spawn : List String → Except SpawnError ProcOutcome) (pr : ProcOutcome)
    (h : spawn (["stimela", "run"] ++ scenarioInput.to_cmd) = .ok pr) :
    validate_size_field (.list [.int 512, .int 512]) = .ok [512, 512]
    ∧ scenarioInput.to_cmd
        = ["cultcargo::wsclean", "ms=['a.ms']", "prefix=out",
           "size=[512, 512]", "scale=1asec", "column=DATA", "niter=1000"]
    ∧ stimela_run spawn scenarioInput.to_cmd
        = .ok { command := "stimela run cultcargo::wsclean ms=['a.ms'] prefix=out size=[512, 512] scale=1asec column=DATA niter=1000",
                stdout := pr.stdout, stderr := pr.stderr,
                return_code := pr.returncode } := by
  refine ⟨rfl, by decide, ?_⟩
  unfold stimela_run
  rw [List.cons_append, List.cons_append, List.nil_append] at h
  simp only [List.cons_append, List.nil_append, h]
  congr 1

/-- Witness for C1: a concrete spawn oracle returning a clean exit produces
the amended scenario's result verbatim. -/
theorem c1_witness :
    validate_size_field (.list [.int 512, .int 512]) = .ok [512, 512]
    ∧ scenarioInput.to_cmd
        = ["cultcargo::wsclean", "ms=['a.ms']", "prefix=out",
           "size=[512, 512]", "scale=1asec", "column=DATA", "niter=1000"]
    ∧ stimela_run
        (fun _ => .ok { stdout := "done", stderr := "", returncode := 0 })
        scenarioInput.to_cmd
        = .ok { command := "stimela run cultcargo::wsclean ms=['a.ms'] prefix=out size=[512, 512] scale=1asec column=DATA niter=1000",
                stdout := "done", stderr := "", return_code := 0 } :=
  c1_end_to_end
    (fun _ => .ok { stdout := "done", stderr := "", returncode := 0 })
    { stdout := "done", stderr := "", returncode := 0 } rfl

/-- C2: how the code actually validates `size`: a bare integer is rejected by
the `list[int]` annotation (contradicting the validator's own docstring,
which promises "int or list of 2 ints"), a single-element list is rejected by
`validate_size` (contradicting the field description's square form), a
three-element list fails with a descriptive arity error, and a two-element
list is accepted and serializes both dimensions in one size token. -/
theorem c2_size_validation_behaviour :
    validate_size_field (.atom (.int 512))
        = .error "Input should be a valid list"
    ∧ validate_size_field (.list [.int 512])
        = .error "Size list must have exactly 2 elements [width, height]"
    ∧ validate_size_field (.list [.int 1, .int 2, .int 3])
        = .error "List should have at most 2 items"
    ∧ validate_size_field (.list [.int 128, .int 64]) = .ok [128, 64]
    ∧ "size=[128, 64]"
        ∈ WSCleanInput.to_cmd
            { ms := ["a.ms"], prefix_ := "out", size := [128, 64],
              scale := .s "1asec" } :=
  ⟨rfl, rfl, rfl, rfl, by decide⟩

end Boepie
